import Mathlib

/-
Shallow embedding of the swift-auth repository (Go): authenticator factory,
the v1 / v2 / v3 protocol codecs, the endpoint resolver and the request
driver, together with proofs of the specification claims about them.

Modelling conventions:
* Go strings are `String`, Go `bool` is `Bool`, Go slices are `List`.
* Go nil-able pointers are `Option`; dereferencing a nil pointer (a Go
  panic) is modelled by an operation returning `none`.
* `http.Header` is an association list; `Get` on a nil header returns ""
  in Go, which the empty list models.
* JSON decoding of a response body (an external library call) is
  abstracted by `ReadJsonResult`: the value the decoder left in the
  freshly allocated target struct, plus the error it returned.
* Request-building is pure in the source up to the HTTP round trip; the
  `RequestBuild` functions model exactly that pure prefix, so an error
  from them occurs before any I/O is performed.
-/

namespace SwiftAuth

/-! Time model: the subset of Go `time.Time` observable through
`time.Parse(time.RFC3339, s)` in this repository. -/

/-- Result of a successful RFC3339 parse: calendar fields plus the zone
offset in seconds. The Go zero `time.Time` is year 1, January 1, 00:00:00 UTC. -/
structure GoTime where
  year : Nat
  month : Nat
  day : Nat
  hour : Nat
  minute : Nat
  second : Nat
  nanosecond : Nat
  offsetSeconds : Int
deriving DecidableEq, Repr

/-- Zero value of Go `time.Time`, returned by the codecs when parsing fails. -/
def zeroTime : GoTime := ⟨1, 1, 1, 0, 0, 0, 0, 0⟩

/-- Numeric value of a decimal digit character, `none` otherwise. -/
def digit (c : Char) : Option Nat :=
  if '0' ≤ c ∧ c ≤ '9' then some (c.toNat - 48) else none

/-- Two fixed decimal digits, as required by the fixed-width RFC3339 layout. -/
def digit2 (a b : Char) : Option Nat := do
  let x ← digit a
  let y ← digit b
  pure (10 * x + y)

/-- Four fixed decimal digits (the year field of the RFC3339 layout). -/
def digit4 (a b c d : Char) : Option Nat := do
  let x ← digit2 a b
  let y ← digit2 c d
  pure (100 * x + y)

/-- Leap-year rule used by Go `time.daysIn`. -/
def isLeap (year : Nat) : Bool :=
  year % 4 == 0 && (year % 100 != 0 || year % 400 == 0)

/-- Number of days in a month, as Go `time.daysIn`. -/
def daysIn (month year : Nat) : Nat :=
  if month == 2 then (if isLeap year then 29 else 28)
  else if month == 4 || month == 6 || month == 9 || month == 11 then 30
  else 31

/-- Nanoseconds denoted by the digit run following the decimal point:
the first nine digits, right-padded with zeros. -/
def fracNanos (ds : List Char) : Nat :=
  ((ds.take 9) ++ List.replicate (9 - ds.length) '0').foldl
    (fun acc c => 10 * acc + (c.toNat - 48)) 0

/-- Zone suffix of the RFC3339 layout `Z07:00`: the literal Z, or a signed
hh:mm offset, in seconds. -/
def parseZone : List Char → Option Int
  | ['Z'] => some 0
  | ['+', h1, h2, ':', m1, m2] => do
    let h ← digit2 h1 h2
    let m ← digit2 m1 m2
    pure (Int.ofNat (h * 3600 + m * 60))
  | ['-', h1, h2, ':', m1, m2] => do
    let h ← digit2 h1 h2
    let m ← digit2 m1 m2
    pure (-(Int.ofNat (h * 3600 + m * 60)))
  | _ => none

/-- Go `time.Parse(time.RFC3339, s)`: fixed-width date and time fields,
optional fractional seconds, mandatory zone, with the range checks the Go
parser applies. `none` models a parse error. -/
def parseRFC3339 (s : String) : Option GoTime :=
  match s.toList with
  | y1 :: y2 :: y3 :: y4 :: '-' :: mo1 :: mo2 :: '-' :: d1 :: d2 :: 'T' ::
      h1 :: h2 :: ':' :: mi1 :: mi2 :: ':' :: s1 :: s2 :: rest => do
    let year ← digit4 y1 y2 y3 y4
    let month ← digit2 mo1 mo2
    let day ← digit2 d1 d2
    let hour ← digit2 h1 h2
    let minute ← digit2 mi1 mi2
    let second ← digit2 s1 s2
    let (nanos, rest2) ←
      match rest with
      | '.' :: more =>
        let ds := more.takeWhile (fun c => decide ('0' ≤ c ∧ c ≤ '9'))
        if ds.isEmpty then none
        else some (fracNanos ds, more.drop ds.length)
      | other => some (0, other)
    let offset ← parseZone rest2
    if 1 ≤ month ∧ month ≤ 12 ∧ 1 ≤ day ∧ day ≤ daysIn month year ∧
        hour ≤ 23 ∧ minute ≤ 59 ∧ second ≤ 59 then
      some ⟨year, month, day, hour, minute, second, nanos, offset⟩
    else none
  | _ => none

/-! Header and URL models. -/

/-- Association-list model of `http.Header`; `[]` models a nil header.
`headerGet` is `http.Header.Get`, which returns "" when absent or nil. -/
def headerGet (h : List (String × String)) (k : String) : String :=
  match h.find? (fun p => p.1 == k) with
  | some p => p.2
  | none => ""

/-- Model of Go `net/url.URL` restricted to the absolute
scheme://host/path form the v1 codec rewrites. -/
structure GoUrl where
  Scheme : String
  Host : String
  Path : String
deriving DecidableEq, Repr

/-- Split at the first "://" occurrence: characters before it and after it. -/
def splitSchemeAux : List Char → Option (List Char × List Char)
  | [] => none
  | ':' :: '/' :: '/' :: rest => some ([], rest)
  | c :: rest => (splitSchemeAux rest).map (fun p => (c :: p.1, p.2))

/-- Model of `net/url.Parse` on absolute scheme://host/path URLs: scheme
before the first "://", host up to the next "/", path the remainder. -/
def urlParse (s : String) : Option GoUrl :=
  match splitSchemeAux s.toList with
  | none => none
  | some (schemeChars, rest) =>
    if schemeChars.isEmpty then none
    else
      let hostChars := rest.takeWhile (fun c => c != '/')
      let pathChars := rest.drop hostChars.length
      some ⟨String.mk schemeChars, String.mk hostChars, String.mk pathChars⟩

/-- Model of `net/url.URL.String` on the same restricted form. -/
def urlString (u : GoUrl) : String := u.Scheme ++ "://" ++ u.Host ++ u.Path

/-! Credential model: `swift.Connection`, the fields this repository reads. -/

/-- Caller-supplied credential fields of `swift.Connection` used by the codecs. -/
structure Connection where
  AuthUrl : String := ""
  UserName : String := ""
  UserId : String := ""
  ApiKey : String := ""
  Tenant : String := ""
  TenantId : String := ""
  TenantDomain : String := ""
  TenantDomainId : String := ""
  Domain : String := ""
  DomainId : String := ""
  TrustId : String := ""
  ApplicationCredentialId : String := ""
  ApplicationCredentialName : String := ""
  ApplicationCredentialSecret : String := ""
  Region : String := ""
  UserAgent : String := ""
deriving DecidableEq, Repr

/-- Interface variants of a catalog endpoint (`swift.EndpointType`). -/
inductive EndpointType where
  | internal
  | public
  | admin
deriving DecidableEq, Repr

/-- Outcome of `readJson` on a response body: the value the JSON decoder
left in the freshly allocated target struct (the zero value, a partial
value, or the full value), and the error `readJson` returned (a decode
error or a close error; `none` on success). -/
structure ReadJsonResult (α : Type) where
  written : α
  err : Option String
deriving DecidableEq, Repr

/-! v1 codec (legacy header auth), files part_001 and part_002. -/

/-- State of the v1 authenticator: the timeout and the stored response
headers (`nil`, modelled as `[]`, until `Response` runs). -/
structure v1Auth where
  timeout : Nat := 0
  headers : List (String × String) := []
deriving DecidableEq, Repr

/-- Model of `v1Auth.Response`: store the response header set verbatim. -/
def v1Auth.Response (auth : v1Auth) (respHeaders : List (String × String)) : v1Auth :=
  { auth with headers := respHeaders }

/-- Model of `v1Auth.Token`: header `X-Auth-Token`. -/
def v1Auth.Token (auth : v1Auth) : String :=
  headerGet auth.headers "X-Auth-Token"

/-- Model of `v1Auth.CdnUrl`: header `X-CDN-Management-Url`. -/
def v1Auth.CdnUrl (auth : v1Auth) : String :=
  headerGet auth.headers "X-CDN-Management-Url"

/-- Model of `v1Auth.StorageUrl`: header `X-Storage-Url`; when `Internal`,
parse it and put "snet-" in front of the host (returning the raw header
when the parse fails, as the source does). -/
def v1Auth.StorageUrl (auth : v1Auth) (Internal : Bool) : String :=
  let storageUrl := headerGet auth.headers "X-Storage-Url"
  if Internal then
    match urlParse storageUrl with
    | none => storageUrl
    | some u => urlString { u with Host := "snet-" ++ u.Host }
  else storageUrl

/-! v2 codec (Keystone v2 JSON), file part_003. -/

/-- Endpoint record of the v2 service catalog. -/
structure v2Endpoint where
  InternalUrl : String := ""
  PublicUrl : String := ""
  AdminUrl : String := ""
  Region : String := ""
  TenantId : String := ""
deriving DecidableEq, Repr

/-- Service-catalog entry of the v2 response. `Type'` renders the Go
field `Type`, which is a reserved word here. -/
structure v2CatalogEntry where
  Endpoints : List v2Endpoint := []
  Name : String := ""
  Type' : String := ""
deriving DecidableEq, Repr

/-- Tenant record inside the v2 token. -/
structure v2Tenant where
  Id : String := ""
  Name : String := ""
deriving DecidableEq, Repr

/-- Token record of the v2 response. -/
structure v2AccessToken where
  Expires : String := ""
  Id : String := ""
  Tenant : v2Tenant := {}
deriving DecidableEq, Repr

/-- Role record of the v2 response user. -/
structure v2Role where
  Description : String := ""
  Id : String := ""
  Name : String := ""
  TenantId : String := ""
deriving DecidableEq, Repr

/-- User record of the v2 response. -/
structure v2ResponseUser where
  DefaultRegion : String := ""
  Id : String := ""
  Name : String := ""
  Roles : List v2Role := []
deriving DecidableEq, Repr

/-- Access record of the v2 response. -/
structure v2Access where
  ServiceCatalog : List v2CatalogEntry := []
  Token : v2AccessToken := {}
  User : v2ResponseUser := {}
deriving DecidableEq, Repr

/-- Parsed v2 authentication response (`v2AuthResponse`). -/
structure v2AuthResponse where
  Access : v2Access := {}
deriving DecidableEq, Repr

/-- Body of the normal v2 request (`v2AuthRequest`, passwordCredentials form). -/
structure v2AuthRequest where
  UserName : String
  Password : String
  Tenant : String
  TenantId : String
deriving DecidableEq, Repr

/-- Body of the Rackspace v2 request (`v2AuthRequestRackspace`, apiKeyCredentials form). -/
structure v2AuthRequestRackspace where
  UserName : String
  ApiKey : String
  Tenant : String
  TenantId : String
deriving DecidableEq, Repr

/-- One of the two mutually exclusive v2 request bodies. -/
inductive v2Body where
  | normal : v2AuthRequest → v2Body
  | rackspace : v2AuthRequestRackspace → v2Body
deriving DecidableEq, Repr

/-- Encoding flag of a built v2 body: true when the Rackspace
apiKeyCredentials form was used. -/
def v2Body.isApiKeyBody : v2Body → Bool
  | .normal _ => false
  | .rackspace _ => true

/-- State of the v2 authenticator (`v2Auth`): the stored parsed response
(a nil-able pointer), the region, and the toggle flags. -/
structure v2Auth where
  Auth : Option v2AuthResponse := none
  Region : String := ""
  timeout : Nat := 0
  useApiKey : Bool := false
  useApiKeyOk : Bool := false
  notFirst : Bool := false
deriving DecidableEq, Repr

/-- Model of the pure prefix of `v2Auth.Request` (part_003 lines 26-51):
store the region, toggle `useApiKey` when this is not the first run and no
response has parsed yet, mark attempted, and build one of the two bodies.
The HTTP round trip and the `Response` call that follow in the source are
I/O and are driven externally. -/
def v2Auth.RequestBuild (auth : v2Auth) (c : Connection) : v2Auth × v2Body :=
  let auth := { auth with Region := c.Region }
  let auth :=
    if auth.notFirst && !auth.useApiKeyOk then
      { auth with useApiKey := !auth.useApiKey }
    else auth
  let auth := { auth with notFirst := true }
  let body :=
    if !auth.useApiKey then
      v2Body.normal ⟨c.UserName, c.ApiKey, c.Tenant, c.TenantId⟩
    else
      v2Body.rackspace ⟨c.UserName, c.ApiKey, c.Tenant, c.TenantId⟩
  (auth, body)

/-- Model of `v2Auth.Response` (part_003 lines 84-92): allocate a fresh
response struct, decode into it (`ReadJsonResult` carries the outcome),
and set `useApiKeyOk` only when no error was returned. -/
def v2Auth.Response (auth : v2Auth) (r : ReadJsonResult v2AuthResponse) :
    v2Auth × Option String :=
  let auth := { auth with Auth := some r.written }
  let auth := if r.err.isNone then { auth with useApiKeyOk := true } else auth
  (auth, r.err)

/-- URL field of a v2 endpoint selected by the requested interface type
(the switch inside `v2Auth.endpointUrl`). -/
def v2UrlFor (e : v2Endpoint) (et : EndpointType) : String :=
  match et with
  | .internal => e.InternalUrl
  | .public => e.PublicUrl
  | .admin => e.AdminUrl

/-- Region filter of both endpoint loops: no configured region accepts
everything, otherwise the endpoint region must match. -/
def regionOk (region r : String) : Bool :=
  region == "" || region == r

/-- Inner loop of `v2Auth.endpointUrl`: first endpoint passing the region
filter yields its URL field for the requested interface. -/
def v2EndpointScan (region : String) (et : EndpointType) :
    List v2Endpoint → Option String
  | [] => none
  | e :: rest =>
    if regionOk region e.Region then some (v2UrlFor e et)
    else v2EndpointScan region et rest

/-- Outer loop of `v2Auth.endpointUrl`: scan catalog entries of the
requested service type; "" when nothing matches. -/
def v2CatalogScan (region Type' : String) (et : EndpointType) :
    List v2CatalogEntry → String
  | [] => ""
  | cat :: rest =>
    if cat.Type' == Type' then
      match v2EndpointScan region et cat.Endpoints with
      | some u => u
      | none => v2CatalogScan region Type' et rest
    else v2CatalogScan region Type' et rest

/-- Model of `v2Auth.endpointUrl`; `none` models the nil-pointer panic
when no response is stored. -/
def v2Auth.endpointUrl (auth : v2Auth) (Type' : String) (et : EndpointType) :
    Option String :=
  auth.Auth.map (fun a => v2CatalogScan auth.Region Type' et a.Access.ServiceCatalog)

/-- Model of `v2Auth.StorageUrlForEndpoint`. -/
def v2Auth.StorageUrlForEndpoint (auth : v2Auth) (et : EndpointType) : Option String :=
  auth.endpointUrl "object-store" et

/-- Model of `v2Auth.StorageUrl`. -/
def v2Auth.StorageUrl (auth : v2Auth) (Internal : Bool) : Option String :=
  auth.StorageUrlForEndpoint (if Internal then .internal else .public)

/-- Model of `v2Auth.Token`; `none` models the nil-pointer panic on a
fresh authenticator whose `Auth` pointer is still nil. -/
def v2Auth.Token (auth : v2Auth) : Option String :=
  auth.Auth.map (fun a => a.Access.Token.Id)

/-- Model of `v2Auth.Expires`: RFC3339-parse the stored expiry, zero time
when unparsable; `none` models the nil-pointer panic on a fresh instance. -/
def v2Auth.Expires (auth : v2Auth) : Option GoTime :=
  auth.Auth.map (fun a =>
    match parseRFC3339 a.Access.Token.Expires with
    | some t => t
    | none => zeroTime)

/-- Model of `v2Auth.CdnUrl`. -/
def v2Auth.CdnUrl (auth : v2Auth) : Option String :=
  auth.endpointUrl "rax:object-cdn" .public

/-! v3 codec (Keystone v3 JSON, scoped), file part_000. -/

/-- Method-name constants of the v3 request. -/
def v3AuthMethodToken : String := "token"

/-- Password method name. -/
def v3AuthMethodPassword : String := "password"

/-- Application-credential method name. -/
def v3AuthMethodApplicationCredential : String := "application_credential"

/-- Object-store catalog type constant. -/
def v3CatalogTypeObjectStore : String := "object-store"

/-- Domain reference of the v3 request (`v3Domain`). -/
structure v3Domain where
  Id : String := ""
  Name : String := ""
deriving DecidableEq, Repr

/-- Project reference of the v3 scope (`v3Project`). -/
structure v3Project where
  Name : String := ""
  Id : String := ""
  Domain : Option v3Domain := none
deriving DecidableEq, Repr

/-- Trust reference of the v3 scope (`v3Trust`). -/
structure v3Trust where
  Id : String := ""
deriving DecidableEq, Repr

/-- Scope block of the v3 request (`v3Scope`). -/
structure v3Scope where
  Project : Option v3Project := none
  Domain : Option v3Domain := none
  Trust : Option v3Trust := none
deriving DecidableEq, Repr

/-- User reference of the v3 request (`v3User`). -/
structure v3User where
  Domain : Option v3Domain := none
  Id : String := ""
  Name : String := ""
  Password : String := ""
deriving DecidableEq, Repr

/-- Pre-issued token block of the v3 request (`v3AuthToken`). -/
structure v3AuthToken where
  Id : String := ""
deriving DecidableEq, Repr

/-- Password block of the v3 request (`v3AuthPassword`). -/
structure v3AuthPassword where
  User : v3User := {}
deriving DecidableEq, Repr

/-- Application-credential block of the v3 request (`v3AuthApplicationCredential`). -/
structure v3AuthApplicationCredential where
  Id : String := ""
  Name : String := ""
  Secret : String := ""
  User : Option v3User := none
deriving DecidableEq, Repr

/-- Identity block of the v3 request (the anonymous struct inside
`v3AuthRequest.Auth`). -/
structure v3Identity where
  Methods : List String := []
  Password : Option v3AuthPassword := none
  Token : Option v3AuthToken := none
  ApplicationCredential : Option v3AuthApplicationCredential := none
deriving DecidableEq, Repr

/-- Body of the v3 request (`v3AuthRequest`). -/
structure v3AuthRequest where
  Identity : v3Identity := {}
  Scope : Option v3Scope := none
deriving DecidableEq, Repr

/-- Endpoint record of the v3 catalog; the source field names are kept
(`Namem` reproduces the source spelling). -/
structure v3Endpoint where
  Id : String := ""
  Region_Id : String := ""
  Url : String := ""
  Region : String := ""
  Interface : EndpointType := .public
deriving DecidableEq, Repr

/-- Catalog entry of the v3 response. -/
structure v3CatalogEntry where
  Id : String := ""
  Namem : String := ""
  Type' : String := ""
  Endpoints : List v3Endpoint := []
deriving DecidableEq, Repr

/-- Role record of the v3 response. -/
structure v3Role where
  Id : String := ""
  Name : String := ""
deriving DecidableEq, Repr

/-- Project block of the v3 response token. -/
structure v3RespProject where
  DomainId : String := ""
  DomainName : String := ""
  Id : String := ""
  Name : String := ""
deriving DecidableEq, Repr

/-- User block of the v3 response token. -/
structure v3RespUser where
  Id : String := ""
  Name : String := ""
  DomainId : String := ""
  DomainName : String := ""
deriving DecidableEq, Repr

/-- Token block of the v3 response (`v3AuthResponse.Token`). -/
structure v3RespToken where
  ExpiresAt : String := ""
  IssuedAt : String := ""
  Methods : List String := []
  Roles : List v3Role := []
  Project : v3RespProject := {}
  Catalog : List v3CatalogEntry := []
  User : v3RespUser := {}
  Audit_Ids : List String := []
deriving DecidableEq, Repr

/-- Parsed v3 authentication response (`v3AuthResponse`). -/
structure v3AuthResponse where
  Token : v3RespToken := {}
deriving DecidableEq, Repr

/-- State of the v3 authenticator (`v3Auth`): timeout, region, the stored
parsed response (a nil-able pointer) and the stored response headers. -/
structure v3Auth where
  timeout : Nat := 0
  Region : String := ""
  Auth : Option v3AuthResponse := none
  Headers : List (String × String) := []
deriving DecidableEq, Repr

/-- Name-clearing write of the application-credential path (part_000 line
143): when the credential id is set, `ApplicationCredentialName` is
cleared on the caller connection (the source writes through the pointer). -/
def v3AppCredConn (c : Connection) : Connection :=
  if c.ApplicationCredentialId != "" then
    { c with ApplicationCredentialName := "" }
  else c

/-- User-reference resolution of the application-credential path
(part_000 lines 140-180), applied to the connection after the
name-clearing write: an empty user when the credential id is set, else
the user id, else the user name qualified by domain id or name, and the
two `ConfigError` returns of the source when nothing resolves. -/
def v3AppCredUser (c : Connection) : Except String v3User :=
  let user : Option v3User :=
    if c.ApplicationCredentialId != "" then some {} else none
  let user :=
    if user.isNone && c.UserId != "" then some { Id := c.UserId } else user
  if user.isNone && c.UserName == "" then
    Except.error "UserID or Name should be provided"
  else
    let user :=
      if user.isNone && c.DomainId != "" then
        some { Name := c.UserName, Domain := some { Id := c.DomainId } }
      else user
    let user :=
      if user.isNone && c.Domain != "" then
        some { Name := c.UserName, Domain := some { Name := c.Domain } }
      else user
    match user with
    | none => Except.error "DomainID or Domain should be provided"
    | some u => Except.ok u

/-- Identity resolution of `v3Auth.Request` (part_000 lines 139-210): pick
one of the three methods and, on the application-credential path, resolve
the embedded user reference, clearing `ApplicationCredentialName` on the
caller connection when `ApplicationCredentialId` is set. Errors here are
the `ConfigError` returns of the source, issued before any I/O. -/
def v3IdentityFor (c : Connection) : Except String (Connection × v3Identity) :=
  if (c.ApplicationCredentialId != "" || c.ApplicationCredentialName != "") &&
      c.ApplicationCredentialSecret != "" then
    match v3AppCredUser (v3AppCredConn c) with
    | .error e => .error e
    | .ok u =>
      Except.ok (v3AppCredConn c,
        { Methods := [v3AuthMethodApplicationCredential]
          ApplicationCredential := some
            { Id := (v3AppCredConn c).ApplicationCredentialId
              Name := (v3AppCredConn c).ApplicationCredentialName
              Secret := (v3AppCredConn c).ApplicationCredentialSecret
              User := some u } })
  else if c.UserName == "" && c.UserId == "" then
    Except.ok (c,
      { Methods := [v3AuthMethodToken]
        Token := some { Id := c.ApiKey } })
  else
    let domain : Option v3Domain :=
      if c.Domain != "" then some { Name := c.Domain }
      else if c.DomainId != "" then some { Id := c.DomainId }
      else none
    Except.ok (c,
      { Methods := [v3AuthMethodPassword]
        Password := some
          { User :=
              { Name := c.UserName
                Id := c.UserId
                Password := c.ApiKey
                Domain := domain } } })

/-- Scope resolution of `v3Auth.Request` (part_000 lines 212-237),
translated from the source: trust first, then project by tenant id or
name with the domain priority chain, else no scope. -/
def v3ScopeFor (c : Connection) : Option v3Scope :=
  if c.TrustId != "" then
    some { Trust := some { Id := c.TrustId } }
  else if c.TenantId != "" || c.Tenant != "" then
    let project : v3Project := {}
    let project :=
      if c.TenantId != "" then { project with Id := c.TenantId }
      else if c.Tenant != "" then
        { project with
          Name := c.Tenant
          Domain := some
            (if c.TenantDomain != "" then { Name := c.TenantDomain }
             else if c.TenantDomainId != "" then { Id := c.TenantDomainId }
             else if c.Domain != "" then { Name := c.Domain }
             else if c.DomainId != "" then { Id := c.DomainId }
             else { Name := "Default" }) }
      else project
    some { Project := some project }
  else none

/-- Model of the pure prefix of `v3Auth.Request` (part_000 lines 132-239):
store the region, resolve the identity block, and attach the scope unless
the application-credential method was chosen. Returns the possibly
updated connection (the source writes through the `c` pointer) and the
built body; an error occurs before any I/O is performed. -/
def v3Auth.RequestBuild (auth : v3Auth) (c : Connection) :
    Except String (v3Auth × Connection × v3AuthRequest) :=
  let auth := { auth with Region := c.Region }
  match v3IdentityFor c with
  | .error e => .error e
  | .ok (c, identity) =>
    let scope :=
      if identity.Methods.headD "" != v3AuthMethodApplicationCredential then
        v3ScopeFor c
      else none
    .ok (auth, c, { Identity := identity, Scope := scope })

/-- Model of `v3Auth.Response` (part_000 lines 274-279): allocate a fresh
response struct, store the response headers, decode the body into the
fresh struct. -/
def v3Auth.Response (auth : v3Auth) (respHeaders : List (String × String))
    (r : ReadJsonResult v3AuthResponse) : v3Auth × Option String :=
  ({ auth with Auth := some r.written, Headers := respHeaders }, r.err)

/-- Inner loop of `v3Auth.endpointUrl`: first endpoint whose interface
matches and which passes the region filter yields its URL. -/
def v3EndpointScan (region : String) (et : EndpointType) :
    List v3Endpoint → Option String
  | [] => none
  | e :: rest =>
    if e.Interface == et && regionOk region e.Region then some e.Url
    else v3EndpointScan region et rest

/-- Outer loop of `v3Auth.endpointUrl`: scan catalog entries of the
requested service type; "" when nothing matches. -/
def v3CatalogScan (region Type' : String) (et : EndpointType) :
    List v3CatalogEntry → String
  | [] => ""
  | cat :: rest =>
    if cat.Type' == Type' then
      match v3EndpointScan region et cat.Endpoints with
      | some u => u
      | none => v3CatalogScan region Type' et rest
    else v3CatalogScan region Type' et rest

/-- Model of `v3Auth.endpointUrl`; `none` models the nil-pointer panic
when no response is stored. -/
def v3Auth.endpointUrl (auth : v3Auth) (Type' : String) (et : EndpointType) :
    Option String :=
  auth.Auth.map (fun a => v3CatalogScan auth.Region Type' et a.Token.Catalog)

/-- Model of `v3Auth.StorageUrlForEndpoint`. -/
def v3Auth.StorageUrlForEndpoint (auth : v3Auth) (et : EndpointType) : Option String :=
  auth.endpointUrl "object-store" et

/-- Model of `v3Auth.StorageUrl`. -/
def v3Auth.StorageUrl (auth : v3Auth) (Internal : Bool) : Option String :=
  auth.StorageUrlForEndpoint (if Internal then .internal else .public)

/-- Model of `v3Auth.Token`: header `X-Subject-Token` (a nil header set
reads as ""). -/
def v3Auth.Token (auth : v3Auth) : String :=
  headerGet auth.Headers "X-Subject-Token"

/-- Model of `v3Auth.Expires`: RFC3339-parse the stored expiry, zero time
when unparsable; `none` models the nil-pointer panic on a fresh instance. -/
def v3Auth.Expires (auth : v3Auth) : Option GoTime :=
  auth.Auth.map (fun a =>
    match parseRFC3339 a.Token.ExpiresAt with
    | some t => t
    | none => zeroTime)

/-- Model of `v3Auth.CdnUrl`: unsupported, always "". -/
def v3Auth.CdnUrl (_ : v3Auth) : String := ""

/-! Authenticator factory (src/auth.go) and request driver models. -/

/-- The three protocol codecs behind the `swift.Authenticator` interface. -/
inductive Authenticator where
  | v1 : v1Auth → Authenticator
  | v2 : v2Auth → Authenticator
  | v3 : v3Auth → Authenticator
deriving DecidableEq, Repr

/-- Go `strings.Contains`, via `splitOn` (the substring is never empty here). -/
def strContains (s sub : String) : Bool :=
  (s.splitOn sub).length > 1

/-- Version inference of `New` (src/auth.go lines 17-27): keep a nonzero
hint, otherwise look for "v3", "v2", "v1" as substrings of the URL, in
that order; 0 stands for the undetectable case. -/
def inferVersion (authUrl : String) (authVersion : Nat) : Nat :=
  if authVersion == 0 then
    if strContains authUrl "v3" then 3
    else if strContains authUrl "v2" then 2
    else if strContains authUrl "v1" then 1
    else 0
  else authVersion

/-- Model of `New` (src/auth.go lines 16-44): infer the version from the
URL when the hint is zero, then construct the matching codec; v2 seeds
`useApiKey` from the key length. Version 0 (undetectable) and versions
other than 1, 2, 3 yield the two `ConfigError` returns of the source. -/
def New (authUrl apiKey : String) (authVersion : Nat) (connTimeout : Nat) :
    Except String Authenticator :=
  match inferVersion authUrl authVersion with
  | 0 => .error "can\x27t find authVersion in AuthUrl - set explicitly"
  | 1 => .ok (.v1 { timeout := connTimeout })
  | 2 => .ok (.v2 { useApiKey := decide (32 ≤ apiKey.length), timeout := connTimeout })
  | 3 => .ok (.v3 { timeout := connTimeout })
  | _ => .error "auth Version not supported"

/-- Transport-side effects of the request driver observable after a
response has been received. -/
inductive Effect where
  | drainCloseBody
  | flushIdle
deriving DecidableEq, Repr

/-- Model of `parseHeaders` (part_000 lines 354-360): a status outside
2xx drains and closes the body and yields an HTTP status error. -/
def parseHeadersModel (statusCode : Int) (status : String) :
    Option String × List Effect :=
  if statusCode < 200 ∨ statusCode > 299 then
    (some ("HTTP Error: " ++ toString statusCode ++ ": " ++ status),
      [Effect.drainCloseBody])
  else (none, [])

/-- Model of `doRequest` in package auth (src/auth.go lines 46-59) on the
path where a response was received: validate the status, return. No
other transport effect is performed on any outcome. -/
def doRequestAuthPkg (statusCode : Int) (status : String) :
    Option String × List Effect :=
  parseHeadersModel statusCode status

/-- Model of `doRequest` in package swift_auth (part_002 lines 43-62) on
the path where a response was received: validate the status, then the
deferred block drains and closes the body and flushes idle keep-alive
connections, on every outcome. -/
def doRequestSwiftAuthPkg (statusCode : Int) (status : String) :
    Option String × List Effect :=
  let (err, effs) := parseHeadersModel statusCode status
  (err, effs ++ [Effect.drainCloseBody, Effect.flushIdle])

/-! Specification-side definitions, written from the wording of the
claims rather than from the source, for the refinement comparisons. -/

/-- Scope resolution as the specification words it: trustId set gives a
trust scope; else tenantId or tenant set gives a project scope with id
taking priority over name, the project domain chosen by the priority
tenantDomain name, tenantDomainId, domain name, domainId, literal
"Default"; else no scope. -/
def scopeSpec (c : Connection) : Option v3Scope :=
  if c.TrustId != "" then
    some { Trust := some { Id := c.TrustId } }
  else if c.TenantId != "" then
    some { Project := some { Id := c.TenantId } }
  else if c.Tenant != "" then
    let dom : v3Domain :=
      if c.TenantDomain != "" then { Name := c.TenantDomain }
      else if c.TenantDomainId != "" then { Id := c.TenantDomainId }
      else if c.Domain != "" then { Name := c.Domain }
      else if c.DomainId != "" then { Id := c.DomainId }
      else { Name := "Default" }
    some { Project := some { Name := c.Tenant, Domain := some dom } }
  else none

/-- Endpoint resolution as the specification words it, v2 shape: among
the endpoints of the matching-type catalog entries in order, the first
one passing the region filter (no region accepts everything) supplies the
URL field of the requested interface; "" when none does. -/
def v2EndpointSpec (region Type' : String) (et : EndpointType)
    (cats : List v2CatalogEntry) : String :=
  match ((cats.filter (fun cat => cat.Type' == Type')).map
      v2CatalogEntry.Endpoints).flatten.find? (fun e => regionOk region e.Region) with
  | some e => v2UrlFor e et
  | none => ""

/-- Endpoint resolution as the specification words it, v3 shape: among
the endpoints of the matching-type catalog entries in order, the first
one whose interface matches and which passes the region filter supplies
its URL; "" when none does. -/
def v3EndpointSpec (region Type' : String) (et : EndpointType)
    (cats : List v3CatalogEntry) : String :=
  match ((cats.filter (fun cat => cat.Type' == Type')).map
      v3CatalogEntry.Endpoints).flatten.find?
      (fun e => e.Interface == et && regionOk region e.Region) with
  | some e => e.Url
  | none => ""

/-! Event traces over one v2 authenticator instance, for the toggle
convergence claim. -/

/-- One event in the life of a v2 authenticator: a `Request` call (its
pure state-mutating prefix) or a `Response` call with a given decode
outcome. -/
inductive V2Event where
  | request : Connection → V2Event
  | response : ReadJsonResult v2AuthResponse → V2Event

/-- State transition of a v2 authenticator under one event. -/
def v2Step (auth : v2Auth) : V2Event → v2Auth
  | .request c => (auth.RequestBuild c).1
  | .response r => (auth.Response r).1

/-- State after a sequence of events. -/
def v2Run (auth : v2Auth) : List V2Event → v2Auth
  | [] => auth
  | e :: es => v2Run (v2Step auth e) es

/-! Theorems settling the claims. -/

/-- Stored v2 state holding a previously parsed response, used to exhibit
that a failed decode overwrites it. -/
def v2StoredExample : v2Auth :=
  { Auth := some { Access := { Token := { Expires := "2015-11-09T08:00:00Z", Id := "old-token" } } }
    Region := "RegionOne"
    timeout := 5
    useApiKey := true
    useApiKeyOk := true
    notFirst := true }

/-- C1 counterexample: a v2 authenticator holding a previously parsed
response (token id "old-token") receives a `Response` call whose decode
fails; the call returns the decode error, yet the stored parsed response
has been replaced (with the freshly allocated zero struct the decoder
left behind), so the previously stored AuthState is not left untouched. -/
theorem c1_counterexample :
    (v2StoredExample.Response ⟨{}, some "invalid character"⟩).2 = some "invalid character"
  ∧ (v2StoredExample.Response ⟨{}, some "invalid character"⟩).1.Auth ≠ v2StoredExample.Auth := by
  refine ⟨rfl, ?_⟩
  decide

/-- C1 (amended): a failed `Response` call does not preserve the stored
parsed response: v2 and v3 always replace it with the freshly allocated
(possibly partially decoded) struct, and v3 also replaces the stored
headers. The toggle flags are preserved on failure: `useApiKeyOk` becomes
`true` exactly when the call succeeded and is never cleared, and
`useApiKey` and `notFirst` are untouched by `Response`. -/
theorem c1_amended (a2 : v2Auth) (r2 : ReadJsonResult v2AuthResponse)
    (a3 : v3Auth) (newHeaders : List (String × String))
    (r3 : ReadJsonResult v3AuthResponse) :
    ((a2.Response r2).2 = r2.err
      ∧ (a2.Response r2).1.Auth = some r2.written
      ∧ (a2.Response r2).1.useApiKey = a2.useApiKey
      ∧ (a2.Response r2).1.notFirst = a2.notFirst
      ∧ (a2.Response r2).1.Region = a2.Region
      ∧ (a2.Response r2).1.useApiKeyOk = (a2.useApiKeyOk || r2.err.isNone))
  ∧ ((a3.Response newHeaders r3).2 = r3.err
      ∧ (a3.Response newHeaders r3).1.Auth = some r3.written
      ∧ (a3.Response newHeaders r3).1.Headers = newHeaders
      ∧ (a3.Response newHeaders r3).1.Region = a3.Region) := by
  refine ⟨?_, ?_⟩
  · cases h : r2.err <;> simp [v2Auth.Response, h]
  · simp [v3Auth.Response]

/-- Flag actually used for the body built by a `Request` call equals the
post-toggle `useApiKey` of the updated state. -/
theorem requestBuild_flag_eq (a : v2Auth) (c : Connection) :
    (a.RequestBuild c).2.isApiKeyBody = (a.RequestBuild c).1.useApiKey := by
  unfold v2Auth.RequestBuild
  cases hn : a.notFirst <;> cases hk : a.useApiKeyOk <;> cases hu : a.useApiKey <;>
    simp [hn, hk, hu, v2Body.isApiKeyBody]

/-- Toggle rule of a `Request` call on `useApiKey`. -/
theorem requestBuild_useApiKey (a : v2Auth) (c : Connection) :
    (a.RequestBuild c).1.useApiKey =
      (if a.notFirst && !a.useApiKeyOk then !a.useApiKey else a.useApiKey) := by
  unfold v2Auth.RequestBuild
  cases hn : a.notFirst <;> cases hk : a.useApiKeyOk <;> simp [hn, hk]

/-- A `Request` call never changes `useApiKeyOk`. -/
theorem requestBuild_ok_pres (a : v2Auth) (c : Connection) :
    (a.RequestBuild c).1.useApiKeyOk = a.useApiKeyOk := by
  unfold v2Auth.RequestBuild
  cases hn : a.notFirst <;> cases hk : a.useApiKeyOk <;> simp [hn, hk]

/-- A `Request` call always marks the state as attempted. -/
theorem requestBuild_notFirst (a : v2Auth) (c : Connection) :
    (a.RequestBuild c).1.notFirst = true := by
  unfold v2Auth.RequestBuild
  cases hn : a.notFirst <;> cases hk : a.useApiKeyOk <;> simp [hn, hk]

/-- Once `useApiKeyOk` holds, one further event preserves it and leaves
`useApiKey` unchanged. -/
theorem v2Step_locked (a : v2Auth) (e : V2Event) (h : a.useApiKeyOk = true) :
    (v2Step a e).useApiKeyOk = true ∧ (v2Step a e).useApiKey = a.useApiKey := by
  cases e with
  | request c =>
    refine ⟨?_, ?_⟩
    · rw [v2Step, requestBuild_ok_pres, h]
    · rw [v2Step, requestBuild_useApiKey, h]
      simp
  | response r =>
    cases hr : r.err <;> simp [v2Step, v2Auth.Response, h, hr]

/-- Once `useApiKeyOk` holds, any event sequence preserves it and leaves
`useApiKey` unchanged. -/
theorem v2Run_locked (a : v2Auth) (es : List V2Event) (h : a.useApiKeyOk = true) :
    (v2Run a es).useApiKeyOk = true ∧ (v2Run a es).useApiKey = a.useApiKey := by
  induction es generalizing a with
  | nil => exact ⟨h, rfl⟩
  | cons e es ih =>
    have hs := v2Step_locked a e h
    have ht := ih (v2Step a e) hs.1
    exact ⟨ht.1, ht.2.trans hs.2⟩

/-- C3: starting from any v2 state with `useApiKeyOk` still false, two
consecutive `Request` calls with no successful `Response` in between (the
first attempt failed with an HTTP status error, so `Response` never ran)
use opposite body-encoding flags; and a successful `Response` sets
`useApiKeyOk`, after which the flag never flips again for that instance,
whatever further `Request` / `Response` events occur. -/
theorem c3_v2_toggle (s0 : v2Auth) (c1 c2 : Connection)
    (hok : s0.useApiKeyOk = false)
    (s : v2Auth) (r : ReadJsonResult v2AuthResponse) (hr : r.err = none)
    (es : List V2Event) :
    (((s0.RequestBuild c1).1.RequestBuild c2).2.isApiKeyBody
        = ! (s0.RequestBuild c1).2.isApiKeyBody)
  ∧ ((s.Response r).1.useApiKeyOk = true)
  ∧ ((v2Run (s.Response r).1 es).useApiKey = (s.Response r).1.useApiKey) := by
  refine ⟨?_, ?_, ?_⟩
  · rw [requestBuild_flag_eq, requestBuild_flag_eq, requestBuild_useApiKey,
      requestBuild_notFirst, requestBuild_ok_pres, hok]
    simp
  · simp [v2Auth.Response, hr]
  · exact (v2Run_locked _ es (by simp [v2Auth.Response, hr])).2

/-- C3 witness: the toggle and convergence facts evaluated on a fresh v2
authenticator, a successful decode, and a subsequent request event. -/
theorem c3_v2_toggle_witness :
    ((({} : v2Auth).RequestBuild {}).1.RequestBuild {}).2.isApiKeyBody
        = ! (({} : v2Auth).RequestBuild {}).2.isApiKeyBody
  ∧ ((({} : v2Auth).Response ⟨{}, none⟩).1.useApiKeyOk = true)
  ∧ ((v2Run (({} : v2Auth).Response ⟨{}, none⟩).1 [V2Event.request {}]).useApiKey
        = (({} : v2Auth).Response ⟨{}, none⟩).1.useApiKey) :=
  c3_v2_toggle {} {} {} rfl {} ⟨{}, none⟩ rfl [V2Event.request {}]

/-- C2 counterexample: the factory builds a fresh v2 authenticator for a
v2 URL, and `Token()` on it dereferences the nil `Auth` pointer (modelled
by `none`) instead of returning the empty string: the fresh v2 state has
no stored response, so the Go code panics rather than returning "". -/
theorem c2_counterexample :
    New "https://example.com/v2.0" "secret" 2 7 =
        Except.ok (Authenticator.v2 { timeout := 7 })
  ∧ v2Auth.Token { timeout := 7 } = none
  ∧ v2Auth.Token { timeout := 7 } ≠ some "" := by
  refine ⟨rfl, rfl, ?_⟩
  decide

/-- C2 (amended): on a freshly constructed authenticator the header-backed
queries are total and return their sentinels (v1 `Token`/`CdnUrl`/
`StorageUrl` and v3 `Token` return ""), but the queries that read the
stored parsed response dereference a nil pointer (modelled by `none`)
rather than returning a sentinel: v2 `Token`, `Expires` and `StorageUrl`,
and v3 `Expires`. -/
theorem c2_amended (url key : String) (ver t : Nat) (a : Authenticator)
    (h : New url key ver t = .ok a) :
    (match a with
     | .v1 x => x.Token = "" ∧ x.CdnUrl = "" ∧ x.StorageUrl false = ""
     | .v2 x => x.Token = none ∧ x.Expires = none ∧ x.StorageUrl true = none
     | .v3 x => x.Token = "" ∧ x.CdnUrl = "" ∧ x.Expires = none ∧ x.StorageUrl false = none) := by
  unfold New at h
  split at h
  · exact absurd h (by simp)
  · cases h
    exact ⟨rfl, rfl, rfl⟩
  · cases h
    exact ⟨rfl, rfl, rfl⟩
  · cases h
    exact ⟨rfl, rfl, rfl, rfl⟩
  · exact absurd h (by simp)

/-- C2 witness: the amended statement evaluated on the fresh v2
authenticator the factory returns for a v2 URL. -/
theorem c2_amended_witness :
    v2Auth.Token { timeout := 7 } = none
  ∧ v2Auth.Expires { timeout := 7 } = none
  ∧ v2Auth.StorageUrl { timeout := 7 } true = none :=
  c2_amended "https://example.com/v2.0" "secret" 2 7
    (Authenticator.v2 { timeout := 7 }) rfl

/-- User resolution fails on a connection with no credential id, no user
id, and either no user name or no domain reference. -/
theorem v3AppCredUser_error (c : Connection)
    (hid : c.ApplicationCredentialId = "") (huid : c.UserId = "")
    (href : c.UserName = "" ∨ (c.DomainId = "" ∧ c.Domain = "")) :
    ∃ e, v3AppCredUser c = Except.error e := by
  unfold v3AppCredUser
  rcases href with hun | ⟨hdid, hd⟩
  · exact ⟨"UserID or Name should be provided", by simp [hid, huid, hun]⟩
  · by_cases hun : c.UserName = ""
    · exact ⟨"UserID or Name should be provided", by simp [hid, huid, hun]⟩
    · exact ⟨"DomainID or Domain should be provided", by simp [hid, huid, hun, hdid, hd]⟩

/-- C4: when the application-credential method is selected (name and
secret present) but the credential id, the user id, and either the user
name or any domain reference are all missing, the pure request-building
phase of v3 `Request` fails with a `ConfigError` — so the failure occurs
before any HTTP I/O, which only happens after `RequestBuild` succeeds. -/
theorem c4_v3_appcred_config_error (auth : v3Auth) (c : Connection)
    (hname : c.ApplicationCredentialName ≠ "")
    (hsec : c.ApplicationCredentialSecret ≠ "")
    (hid : c.ApplicationCredentialId = "") (huid : c.UserId = "")
    (href : c.UserName = "" ∨ (c.DomainId = "" ∧ c.Domain = "")) :
    ∃ e, auth.RequestBuild c = Except.error e := by
  obtain ⟨e, he⟩ := v3AppCredUser_error c hid huid href
  refine ⟨e, ?_⟩
  unfold v3Auth.RequestBuild v3IdentityFor
  simp [v3AppCredConn, hid, hname, hsec, he]

/-- C4 witness: a connection with only an application-credential name and
secret (no credential id, no user reference) is rejected. -/
theorem c4_witness :
    ∃ e, v3Auth.RequestBuild {}
      { ApplicationCredentialName := "acname"
        ApplicationCredentialSecret := "acsecret" } = Except.error e :=
  c4_v3_appcred_config_error {} _ (by decide) (by decide) rfl rfl (Or.inl rfl)

/-- Scope resolution translated from the source agrees with the
specification wording of the priority chain. -/
theorem v3ScopeFor_eq_scopeSpec (c : Connection) : v3ScopeFor c = scopeSpec c := by
  unfold v3ScopeFor scopeSpec
  cases htr : (c.TrustId != "") <;> cases htid : (c.TenantId != "") <;>
    cases ht : (c.Tenant != "") <;> simp [htr, htid, ht]

/-- Identity resolution keeps the connection unchanged and picks the token
or password method when the application-credential condition fails. -/
theorem v3IdentityFor_not_appcred (c : Connection)
    (h : ((c.ApplicationCredentialId != "" || c.ApplicationCredentialName != "") &&
        c.ApplicationCredentialSecret != "") = false) :
    ∃ idy, v3IdentityFor c = Except.ok (c, idy) ∧
      (idy.Methods = [v3AuthMethodToken] ∨ idy.Methods = [v3AuthMethodPassword]) := by
  unfold v3IdentityFor
  rw [h]
  cases hu : (c.UserName == "" && c.UserId == "") <;> simp

/-- Identity resolution on the application-credential path always reports
the application-credential method when it succeeds. -/
theorem v3IdentityFor_appcred (c : Connection)
    (h : ((c.ApplicationCredentialId != "" || c.ApplicationCredentialName != "") &&
        c.ApplicationCredentialSecret != "") = true)
    (c2 : Connection) (idy : v3Identity)
    (hok : v3IdentityFor c = Except.ok (c2, idy)) :
    idy.Methods = [v3AuthMethodApplicationCredential] := by
  unfold v3IdentityFor at hok
  rw [h] at hok
  simp only [if_true] at hok
  split at hok
  · exact absurd hok (by simp)
  · cases hok
    rfl

/-- C5: when v3 `RequestBuild` succeeds, the scope block of the built body
is `none` for the application-credential method, and otherwise follows the
specification wording exactly: trust scope for a trust id, else a project
scope with id priority over name and the domain priority chain
tenantDomain name, tenantDomainId, domain name, domainId, literal
"Default", else no scope at all. -/
theorem c5_v3_scope (auth a3 : v3Auth) (c c2 : Connection) (body : v3AuthRequest)
    (h : auth.RequestBuild c = Except.ok (a3, c2, body)) :
    (((c.ApplicationCredentialId != "" || c.ApplicationCredentialName != "") &&
        c.ApplicationCredentialSecret != "") = true → body.Scope = none)
  ∧ (((c.ApplicationCredentialId != "" || c.ApplicationCredentialName != "") &&
        c.ApplicationCredentialSecret != "") = false → body.Scope = scopeSpec c) := by
  constructor
  · intro hcond
    unfold v3Auth.RequestBuild at h
    cases hi : v3IdentityFor c with
    | error e => rw [hi] at h; exact absurd h (by simp)
    | ok p =>
      obtain ⟨cc, idy⟩ := p
      have hm := v3IdentityFor_appcred c hcond cc idy hi
      rw [hi] at h
      simp only [hm] at h
      cases h
      simp [v3AuthMethodApplicationCredential]
  · intro hcond
    unfold v3Auth.RequestBuild at h
    obtain ⟨idy, hok, hm⟩ := v3IdentityFor_not_appcred c hcond
    rw [hok] at h
    rcases hm with hm | hm <;>
      · simp only [hm] at h
        cases h
        simp [v3AuthMethodToken, v3AuthMethodPassword,
          v3AuthMethodApplicationCredential, v3ScopeFor_eq_scopeSpec]

/-- Connection used by the C5 witness: password method, tenant name with
a tenant domain. -/
def c5Conn : Connection :=
  { UserName := "user", ApiKey := "pw", Tenant := "proj", TenantDomain := "tdom" }

/-- Body built by v3 `RequestBuild` for the C5 witness connection. -/
def c5Body : v3AuthRequest :=
  { Identity :=
      { Methods := [v3AuthMethodPassword]
        Password := some { User := { Name := "user", Password := "pw" } } }
    Scope := some { Project := some { Name := "proj", Domain := some { Name := "tdom" } } } }

/-- C5 witness: a password-method connection with a tenant name and a
tenant domain receives exactly the scope the specification wording
assigns to it. -/
theorem c5_witness : c5Body.Scope = scopeSpec c5Conn :=
  (c5_v3_scope {} {} c5Conn c5Conn c5Body rfl).2 rfl

/-- Inner v2 loop equals: first endpoint passing the region filter, its
URL field for the requested interface. -/
theorem v2EndpointScan_eq_find (region : String) (et : EndpointType)
    (es : List v2Endpoint) :
    v2EndpointScan region et es =
      (es.find? (fun e => regionOk region e.Region)).map (fun e => v2UrlFor e et) := by
  induction es with
  | nil => rfl
  | cons e rest ih =>
    by_cases hr : regionOk region e.Region = true
    · simp [v2EndpointScan, hr]
    · simp [v2EndpointScan, hr, ih]

/-- Inner v3 loop equals: first endpoint matching the interface and
passing the region filter, its URL. -/
theorem v3EndpointScan_eq_find (region : String) (et : EndpointType)
    (es : List v3Endpoint) :
    v3EndpointScan region et es =
      (es.find? (fun e => e.Interface == et && regionOk region e.Region)).map
        (fun e => e.Url) := by
  induction es with
  | nil => rfl
  | cons e rest ih =>
    by_cases hr : (e.Interface == et && regionOk region e.Region) = true
    · simp [v3EndpointScan, hr]
    · simp [v3EndpointScan, hr, ih]

/-- Outer v2 loop equals the flattened-first-match specification. -/
theorem v2CatalogScan_eq_spec (region Type' : String) (et : EndpointType)
    (cats : List v2CatalogEntry) :
    v2CatalogScan region Type' et cats = v2EndpointSpec region Type' et cats := by
  induction cats with
  | nil => rfl
  | cons cat rest ih =>
    by_cases hc : (cat.Type' == Type') = true
    · rw [v2CatalogScan, if_pos hc, v2EndpointScan_eq_find]
      cases hfind : cat.Endpoints.find? (fun e => regionOk region e.Region) with
      | some e =>
        simp [v2EndpointSpec, hc, List.filter_cons, List.find?_append, hfind]
      | none =>
        simp [v2EndpointSpec, hc, List.filter_cons, List.find?_append, hfind, ih]
    · rw [v2CatalogScan, if_neg hc, ih]
      simp [v2EndpointSpec, List.filter_cons, hc]

/-- Outer v3 loop equals the flattened-first-match specification. -/
theorem v3CatalogScan_eq_spec (region Type' : String) (et : EndpointType)
    (cats : List v3CatalogEntry) :
    v3CatalogScan region Type' et cats = v3EndpointSpec region Type' et cats := by
  induction cats with
  | nil => rfl
  | cons cat rest ih =>
    by_cases hc : (cat.Type' == Type') = true
    · rw [v3CatalogScan, if_pos hc, v3EndpointScan_eq_find]
      cases hfind : cat.Endpoints.find?
          (fun e => e.Interface == et && regionOk region e.Region) with
      | some e =>
        simp [v3EndpointSpec, hc, List.filter_cons, List.find?_append, hfind]
      | none =>
        simp [v3EndpointSpec, hc, List.filter_cons, List.find?_append, hfind, ih]
    · rw [v3CatalogScan, if_neg hc, ih]
      simp [v3EndpointSpec, List.filter_cons, hc]

/-- C6: for an authenticator holding a parsed catalog, v2 and v3 endpoint
resolution return exactly the first endpoint, among the matching-type
catalog entries in order, that passes the region filter (the filter
accepts every endpoint when no region is configured, and only endpoints
of the configured region otherwise; v3 additionally requires the
interface to match), and the empty string when no endpoint matches —
the `v2EndpointSpec` / `v3EndpointSpec` functions state that wording. -/
theorem c6_endpoint_resolution (a2 : v2Auth) (resp2 : v2AuthResponse)
    (h2 : a2.Auth = some resp2)
    (a3 : v3Auth) (resp3 : v3AuthResponse) (h3 : a3.Auth = some resp3)
    (Type' : String) (et : EndpointType) :
    a2.endpointUrl Type' et =
        some (v2EndpointSpec a2.Region Type' et resp2.Access.ServiceCatalog)
  ∧ a3.endpointUrl Type' et =
        some (v3EndpointSpec a3.Region Type' et resp3.Token.Catalog) := by
  constructor
  · rw [v2Auth.endpointUrl, h2]
    simp [v2CatalogScan_eq_spec]
  · rw [v3Auth.endpointUrl, h3]
    simp [v3CatalogScan_eq_spec]

/-- Catalog entry used by the C6 witness: an object-store entry with one
region "A" endpoint. -/
def c6EntryA : v2CatalogEntry :=
  { Type' := "object-store"
    Endpoints := [{ Region := "A", PublicUrl := "https://a.example.com/v1" }] }

/-- Catalog entry used by the C6 witness: an object-store entry with one
region "B" endpoint. -/
def c6EntryB : v2CatalogEntry :=
  { Type' := "object-store"
    Endpoints := [{ Region := "B", PublicUrl := "https://b.example.com/v1" }] }

/-- Service catalog used by the C6 witness: entries for regions "A" and
"B", in that order. -/
def c6Catalog : List v2CatalogEntry := [c6EntryA, c6EntryB]

/-- Parsed v2 response holding the C6 witness catalog. -/
def c6Resp : v2AuthResponse := { Access := { ServiceCatalog := c6Catalog } }

/-- Region-less v2 authenticator holding the C6 witness catalog. -/
def c6AuthNoRegion : v2Auth := { Auth := some c6Resp }

/-- v2 authenticator configured for region "B" holding the C6 witness catalog. -/
def c6AuthRegionB : v2Auth := { Auth := some c6Resp, Region := "B" }

/-- C6 witness: with no region configured resolution returns the region
"A" endpoint listed first; with region "B" configured it skips the region
"A" endpoint and returns the "B" one. -/
theorem c6_witness :
    c6AuthNoRegion.endpointUrl "object-store" .public = some "https://a.example.com/v1"
  ∧ c6AuthRegionB.endpointUrl "object-store" .public = some "https://b.example.com/v1" := by
  have hA := (c6_endpoint_resolution c6AuthNoRegion c6Resp rfl
    { Auth := some {} } {} rfl "object-store" EndpointType.public).1
  have hB := (c6_endpoint_resolution c6AuthRegionB c6Resp rfl
    { Auth := some {} } {} rfl "object-store" EndpointType.public).1
  rw [hA, hB]
  constructor
  · rfl
  · rfl

/-- Connection whose connection after identity resolution is returned by
`v3IdentityFor`: the name-clearing write is the only credential change. -/
theorem v3IdentityFor_conn (c c2 : Connection) (idy : v3Identity)
    (h : v3IdentityFor c = Except.ok (c2, idy)) :
    c2 = if c.ApplicationCredentialId != "" && c.ApplicationCredentialSecret != ""
      then { c with ApplicationCredentialName := "" } else c := by
  unfold v3IdentityFor at h
  split at h
  case isTrue hcond =>
    have hsec : (c.ApplicationCredentialSecret != "") = true := by
      simp only [Bool.and_eq_true] at hcond
      exact hcond.2
    split at h
    · exact absurd h (by simp)
    · injection h with h
      injection h with h1 h2
      rw [← h1]
      cases hid : (c.ApplicationCredentialId != "") <;>
        simp [v3AppCredConn, hid, hsec]
  case isFalse hcond =>
    have hcond2 :
        (c.ApplicationCredentialId != "" && c.ApplicationCredentialSecret != "") = false := by
      cases hid : (c.ApplicationCredentialId != "") <;>
        cases hsec : (c.ApplicationCredentialSecret != "") <;> simp_all
    rw [hcond2]
    split at h <;> injection h with h <;> injection h with h1 h2 <;> rw [← h1] <;> simp

/-- C7 (amended): v3 `RequestBuild` returns the caller connection
unchanged except on the application-credential path with a credential id
set, where it clears `ApplicationCredentialName` — so credentials are not
read-only there, contrary to the claim. -/
theorem c7_amended (auth a3 : v3Auth) (c c2 : Connection) (body : v3AuthRequest)
    (h : auth.RequestBuild c = Except.ok (a3, c2, body)) :
    c2 = if c.ApplicationCredentialId != "" && c.ApplicationCredentialSecret != ""
      then { c with ApplicationCredentialName := "" } else c := by
  unfold v3Auth.RequestBuild at h
  cases hi : v3IdentityFor c with
  | error e => rw [hi] at h; exact absurd h (by simp)
  | ok p =>
    obtain ⟨cc, idy⟩ := p
    rw [hi] at h
    simp only [Except.ok.injEq, Prod.mk.injEq] at h
    obtain ⟨h1, h2, h3⟩ := h
    rw [← h2]
    exact v3IdentityFor_conn c cc idy hi

/-- Connection used for the C7 counterexample and witness: an
application-credential id and name both set, with a secret. -/
def c7Conn : Connection :=
  { ApplicationCredentialId := "cid"
    ApplicationCredentialName := "acname"
    ApplicationCredentialSecret := "acsecret" }

/-- Body built by v3 `RequestBuild` for `c7Conn`. -/
def c7Body : v3AuthRequest :=
  { Identity :=
      { Methods := [v3AuthMethodApplicationCredential]
        ApplicationCredential := some
          { Id := "cid", Secret := "acsecret", User := some {} } } }

/-- C7 counterexample: v3 `RequestBuild` on a connection with
`ApplicationCredentialId` set returns a connection whose
`ApplicationCredentialName` has been cleared — the caller-supplied
credential fields are modified, against the claim. -/
theorem c7_counterexample :
    v3Auth.RequestBuild {} c7Conn =
      Except.ok ({}, { c7Conn with ApplicationCredentialName := "" }, c7Body)
  ∧ { c7Conn with ApplicationCredentialName := "" } ≠ c7Conn := by
  refine ⟨rfl, ?_⟩
  decide

/-- C7 witness: the amended frame condition evaluated on `c7Conn`. -/
theorem c7_witness :
    { c7Conn with ApplicationCredentialName := "" } =
      (if c7Conn.ApplicationCredentialId != "" && c7Conn.ApplicationCredentialSecret != ""
       then { c7Conn with ApplicationCredentialName := "" } else c7Conn) :=
  c7_amended {} {} c7Conn { c7Conn with ApplicationCredentialName := "" } c7Body rfl

/-- C8: for every received HTTP response, on every outcome (2xx or not),
the swift_auth-package request driver flushes idle keep-alive connections
afterward, while the auth-package request driver (src/auth.go) never
does — the flush helper it is meant to call is defined in its package but
never invoked, so the flush-on-every-outcome claim fails for it. -/
theorem c8_flush_divergence (statusCode : Int) (status : String) :
    Effect.flushIdle ∈ (doRequestSwiftAuthPkg statusCode status).2
  ∧ Effect.flushIdle ∉ (doRequestAuthPkg statusCode status).2 := by
  constructor
  · unfold doRequestSwiftAuthPkg parseHeadersModel
    split
    all_goals simp
  · unfold doRequestAuthPkg parseHeadersModel
    split
    all_goals simp

/-- C9: on any v2 or v3 authenticator holding a parsed response,
`Expires` is total: it returns the RFC3339 parse of the stored expiry
field when it parses, and the zero time value otherwise — never an error.
The empty string is among the unparsable inputs. -/
theorem c9_expires (a2 : v2Auth) (r2 : v2AuthResponse) (h2 : a2.Auth = some r2)
    (a3 : v3Auth) (r3 : v3AuthResponse) (h3 : a3.Auth = some r3) :
    (a2.Expires = some ((parseRFC3339 r2.Access.Token.Expires).getD zeroTime))
  ∧ (a3.Expires = some ((parseRFC3339 r3.Token.ExpiresAt).getD zeroTime))
  ∧ parseRFC3339 "" = none := by
  refine ⟨?_, ?_, rfl⟩
  · rw [v2Auth.Expires, h2]
    cases hp : parseRFC3339 r2.Access.Token.Expires <;> simp [hp]
  · rw [v3Auth.Expires, h3]
    cases hp : parseRFC3339 r3.Token.ExpiresAt <;> simp [hp]

/-- Stored v2 response with a malformed expiry field. -/
def c9RespMalformed : v2AuthResponse :=
  { Access := { Token := { Expires := "not-a-time", Id := "tok" } } }

/-- Stored v3 response with a well-formed expiry field. -/
def c9RespGood : v3AuthResponse :=
  { Token := { ExpiresAt := "2015-11-09T08:00:01Z" } }

/-- C9 witness: a malformed expiry yields the zero time, a valid RFC3339
expiry yields the parsed time. -/
theorem c9_witness :
    v2Auth.Expires { Auth := some c9RespMalformed } = some zeroTime
  ∧ v3Auth.Expires { Auth := some c9RespGood } = some ⟨2015, 11, 9, 8, 0, 1, 0, 0⟩ := by
  have h := c9_expires { Auth := some c9RespMalformed } c9RespMalformed rfl
    { Auth := some c9RespGood } c9RespGood rfl
  refine ⟨?_, ?_⟩
  · rw [h.1]
    rfl
  · rw [h.2.1]
    rfl

/-- C10: on a v1 authenticator whose stored `X-Storage-Url` header parses
as a URL, the internal storage URL is that URL with "snet-" put in front
of the host and the path unchanged, and the non-internal storage URL is
the raw header value. -/
theorem c10_storage_url (auth : v1Auth) (u : GoUrl)
    (hp : urlParse (headerGet auth.headers "X-Storage-Url") = some u) :
    auth.StorageUrl true = u.Scheme ++ "://" ++ ("snet-" ++ u.Host) ++ u.Path
  ∧ auth.StorageUrl false = headerGet auth.headers "X-Storage-Url" := by
  constructor
  · rw [v1Auth.StorageUrl]
    simp [hp, urlString]
  · rfl

/-- Header set used by the C10 witness. -/
def c10Headers : List (String × String) :=
  [("X-Storage-Url", "https://host.example.com/v1/AUTH_x")]

/-- C10 witness: the specification example — the internal variant of
https://host.example.com/v1/AUTH_x is https://snet-host.example.com/v1/AUTH_x,
and the non-internal variant is the raw header. -/
theorem c10_witness :
    v1Auth.StorageUrl { headers := c10Headers } true
        = "https://snet-host.example.com/v1/AUTH_x"
  ∧ v1Auth.StorageUrl { headers := c10Headers } false
        = "https://host.example.com/v1/AUTH_x" := by
  have h := c10_storage_url { headers := c10Headers }
    ⟨"https", "host.example.com", "/v1/AUTH_x"⟩ (by rfl)
  refine ⟨?_, ?_⟩
  · rw [h.1]
    rfl
  · rw [h.2]
    rfl

end SwiftAuth
